import Mathlib

/-!
Shallow embedding of src/weather_server.py: the authorization middleware
(ApiKeyMiddleware.dispatch), the two metered MCP tool handlers (get_alerts,
get_forecast), and the Python evaluation semantics they rely on (dict/list
indexing, truthiness, membership, str() interpolation).  Fallible Python
evaluation (KeyError / TypeError / AttributeError) is embedded as
Except PyError; external collaborators (the AgentPay billing client, the NWS
data provider reached through make_nws_request, the uuid generator) are
passed in as function parameters, and each handler returns, besides its
result, the trace of consume calls, fetch URLs and uuid draws it performed.
JSON numbers are embedded as integers: no claim touches fractional values,
and floating point is outside the embedding; the float latitude/longitude
arguments of get_forecast enter only through their rendered text in the
points URL, so they are carried as that rendered text.
-/

/-- JSON documents as parsed by response.json() in make_nws_request. -/
inductive Json where
  | null
  | str (s : String)
  | num (n : Int)
  | arr (elems : List Json)
  | obj (fields : List (String × Json))

/-- Python exceptions that the embedded fragments can raise. -/
inductive PyError where
  | keyError (k : String)
  | typeError
  | attributeError
deriving DecidableEq

/-- A single apostrophe character, used by Python repr of strings. -/
def pyQuote : String := String.singleton (Char.ofNat 39)

mutual

/-- Python str() of a parsed-JSON value, as interpolated by f-strings. -/
def Json.pyStr : Json → String
  | Json.null => "None"
  | Json.str s => s
  | Json.num n => toString n
  | Json.arr xs => "[" ++ pyReprList xs ++ "]"
  | Json.obj fs => "\x7b" ++ pyReprFields fs ++ "\x7d"

/-- Python repr() of a parsed-JSON value (used for container elements). -/
def Json.pyRepr : Json → String
  | Json.null => "None"
  | Json.str s => pyQuote ++ s ++ pyQuote
  | Json.num n => toString n
  | Json.arr xs => "[" ++ pyReprList xs ++ "]"
  | Json.obj fs => "\x7b" ++ pyReprFields fs ++ "\x7d"

def pyReprList : List Json → String
  | [] => ""
  | [x] => Json.pyRepr x
  | x :: xs => Json.pyRepr x ++ ", " ++ pyReprList xs

def pyReprFields : List (String × Json) → String
  | [] => ""
  | [(k, v)] => Json.pyRepr (Json.str k) ++ ": " ++ Json.pyRepr v
  | (k, v) :: xs =>
    Json.pyRepr (Json.str k) ++ ": " ++ Json.pyRepr v ++ ", " ++ pyReprFields xs

end

/-- Python truthiness of a parsed-JSON value (`if not data`). -/
def Json.pyTruthy : Json → Bool
  | Json.null => false
  | Json.str s => !s.isEmpty
  | Json.num n => n != 0
  | Json.arr xs => !xs.isEmpty
  | Json.obj fs => !fs.isEmpty

/-- Python subscription value[k] with a string key: dict lookup raising
KeyError on a missing key, TypeError on any non-dict value. -/
def Json.index : Json → String → Except PyError Json
  | Json.obj fs, k =>
    match fs.lookup k with
    | some v => Except.ok v
    | none => Except.error (PyError.keyError k)
  | _, _ => Except.error PyError.typeError

/-- Python membership test (k in value): key presence for a dict, element
equality for a list, substring test for a string, TypeError otherwise. -/
def Json.pyMember (j : Json) (k : String) : Except PyError Bool :=
  match j with
  | Json.obj fs => Except.ok (fs.lookup k).isSome
  | Json.arr xs =>
    Except.ok (xs.any fun e =>
      match e with
      | Json.str s => s == k
      | _ => false)
  | Json.str s =>
    Except.ok (k.isEmpty || (s.splitOn k).length > 1)
  | _ => Except.error PyError.typeError

/-- Python dict.get(k, default) followed by str() interpolation; a non-dict
receiver has no .get attribute and raises AttributeError. -/
def Json.pyGetStr (j : Json) (k : String) (dflt : String) : Except PyError String :=
  match j with
  | Json.obj fs =>
    match fs.lookup k with
    | some v => Except.ok v.pyStr
    | none => Except.ok dflt
  | _ => Except.error PyError.attributeError

/-- Python iteration (for x in value): list elements, dict keys, string
characters; TypeError on non-iterables. -/
def Json.pyIter : Json → Except PyError (List Json)
  | Json.arr xs => Except.ok xs
  | Json.obj fs => Except.ok (fs.map fun p => Json.str p.1)
  | Json.str s => Except.ok (s.toList.map fun c => Json.str (String.singleton c))
  | _ => Except.error PyError.typeError

/-- Python value[:5] then iteration, as in `for period in periods[:5]`:
lists and strings slice, anything else raises TypeError. -/
def Json.pySliceIter5 : Json → Except PyError (List Json)
  | Json.arr xs => Except.ok (xs.take 5)
  | Json.str s => Except.ok ((s.toList.take 5).map fun c => Json.str (String.singleton c))
  | _ => Except.error PyError.typeError

/-- Python value[k1][k2], first error wins. -/
def pyIndex2 (d : Json) (k1 k2 : String) : Except PyError Json :=
  match d.index k1 with
  | Except.error e => Except.error e
  | Except.ok v => v.index k2

/-- Sequential effectful map, mirroring the Python for-loop that appends one
formatted block per entry and aborts at the first raised exception. -/
def exceptMapList (f : Json → Except PyError String) :
    List Json → Except PyError (List String)
  | [] => Except.ok []
  | x :: xs =>
    match f x with
    | Except.error e => Except.error e
    | Except.ok y =>
      match exceptMapList f xs with
      | Except.error e => Except.error e
      | Except.ok ys => Except.ok (y :: ys)

/-!
Billing client and middleware (src/weather_server.py lines 30-86).
The AgentPay client is external; its two operations are passed in as
functions.  validate_api_key may itself raise, which is embedded as
Except Unit; consume returns a ConsumeResult record.
-/

/-- Per-operation fixed pricing constant (2 cents per alert check). -/
def ALERT_COST_CENTS : Nat := 2

/-- Per-operation fixed pricing constant (3 cents per forecast). -/
def FORECAST_COST_CENTS : Nat := 3

/-- Base URL of the NWS data provider. -/
def NWS_API_BASE : String := "https://api.weather.gov"

/-- Result of agentpay_client.validate_api_key. -/
structure ValidationResult where
  is_valid : Bool
  invalid_reason : String
deriving DecidableEq

/-- Result of agentpay_client.consume. -/
structure ConsumeResult where
  success : Bool
  error_message : String
deriving DecidableEq

/-- One consume call as issued to the billing client: the api key, the
amount in cents, and the usage_event_id passed along. -/
structure ConsumeCall where
  api_key : String
  amount_cents : Nat
  usage_event_id : String
deriving DecidableEq

/-- HTTP response produced by the middleware layer: a status code and a
JSON body with string fields, as built by JSONResponse. -/
structure Response where
  status_code : Nat
  body : List (String × String)
deriving DecidableEq

/-- Python truthiness of the optional header string (`if api_key:`): absent
and empty both count as false. -/
def pyTruthyStr : Option String → Bool
  | none => false
  | some s => !s.isEmpty

/-- Everything observable about one ApiKeyMiddleware.dispatch execution:
the response (or re-raised downstream exception), the value held by
api_key_context after dispatch returns, and the value api_key_context held
while call_next ran (none when call_next was never invoked). -/
structure DispatchResult (eps : Type) where
  response : Except eps Response
  ctxAfter : Option String
  downstreamCtx : Option (Option String)

namespace ApiKeyMiddleware

/-- ApiKeyMiddleware.dispatch (lines 62-86).  header is
request.headers.get of the X-AGENTPAY-API-KEY header; validate is
agentpay_client.validate_api_key, with Except.error for the raising case
caught by the except-clause; call_next is the downstream ASGI stage as a
function of the api_key_context value it observes, which may itself raise
(Except.error); ctx is the prior value of api_key_context.
api_key_context.set returns a token holding the prior value, and the
try/finally resets the context to that token on both the normal and the
raising exit of call_next, re-raising in the latter case. -/
def dispatch {eps : Type} (header : Option String)
    (validate : String → Except Unit ValidationResult)
    (call_next : Option String → Except eps Response)
    (ctx : Option String) : DispatchResult eps :=
  let proceed : DispatchResult eps :=
    match call_next header with
    | Except.ok r =>
      { response := Except.ok r, ctxAfter := ctx, downstreamCtx := some header }
    | Except.error e =>
      { response := Except.error e, ctxAfter := ctx, downstreamCtx := some header }
  if pyTruthyStr header then
    match validate (header.getD "") with
    | Except.error _ =>
      { response := Except.ok
          { status_code := 500,
            body := [("error", "Internal Server Error"),
                     ("message", "API Key validation failed")] },
        ctxAfter := ctx, downstreamCtx := none }
    | Except.ok vr =>
      if !vr.is_valid then
        { response := Except.ok
            { status_code := 401,
              body := [("error", "Unauthorized"),
                       ("message", "Invalid API Key: " ++ vr.invalid_reason)] },
          ctxAfter := ctx, downstreamCtx := none }
      else proceed
  else proceed

end ApiKeyMiddleware

/-!
The two metered tool handlers (lines 89-181).  Each returns an OpTrace:
its text result (or the Python exception it raises), the consume calls it
issued, the URLs it fetched through make_nws_request, and how many uuids it
drew.  uuids is the stream of fresh identifiers str(uuid.uuid4()) would
yield, in draw order.
-/

/-- The observable behavior of one handler call. -/
structure OpTrace where
  result : Except PyError String
  consumeCalls : List ConsumeCall
  fetchUrls : List String
  uuidsDrawn : Nat

/-- Formatting of one alert feature (lines 122-130): feature["properties"]
raises on a feature without that key; the four fields use .get with
defaults. -/
def formatAlert (feature : Json) : Except PyError String :=
  match feature.index "properties" with
  | Except.error e => Except.error e
  | Except.ok props =>
    match props.pyGetStr "event" "Unknown",
          props.pyGetStr "areaDesc" "Unknown",
          props.pyGetStr "severity" "Unknown",
          props.pyGetStr "description" "No description available" with
    | Except.error e, _, _, _ => Except.error e
    | _, Except.error e, _, _ => Except.error e
    | _, _, Except.error e, _ => Except.error e
    | _, _, _, Except.error e => Except.error e
    | Except.ok ev, Except.ok area, Except.ok sev, Except.ok desc =>
      Except.ok ("\nEvent: " ++ ev ++ "\nArea: " ++ area ++ "\nSeverity: "
        ++ sev ++ "\nDescription: " ++ desc ++ "\n")

/-- Lines 118-132 of get_alerts, from the fetched document on:
`if not data or "features" not in data` guard, then the formatting loop
and the "\n---\n" join. -/
def alertsBody : Option Json → Except PyError String
  | none => Except.ok "No active alerts for this state."
  | some d =>
    if !d.pyTruthy then Except.ok "No active alerts for this state."
    else
      match d.pyMember "features" with
      | Except.error e => Except.error e
      | Except.ok false => Except.ok "No active alerts for this state."
      | Except.ok true =>
        match d.index "features" with
        | Except.error e => Except.error e
        | Except.ok features =>
          match features.pyIter with
          | Except.error e => Except.error e
          | Except.ok items =>
            match exceptMapList formatAlert items with
            | Except.error e => Except.error e
            | Except.ok alerts => Except.ok (String.intercalate "\n---\n" alerts)

/-- get_alerts (lines 89-132).  ctx is api_key_context.get(); uuids is the
fresh-identifier stream; consume and fetch are the billing client and
make_nws_request. -/
def get_alerts (ctx : Option String) (uuids : Nat → String)
    (consume : ConsumeCall → ConsumeResult)
    (fetch : String → Option Json) (state : String) : OpTrace :=
  match ctx with
  | none =>
    { result := Except.ok "Error: API Key missing",
      consumeCalls := [], fetchUrls := [], uuidsDrawn := 0 }
  | some api_key =>
    if api_key.isEmpty then
      { result := Except.ok "Error: API Key missing",
        consumeCalls := [], fetchUrls := [], uuidsDrawn := 0 }
    else
      let usage_id := uuids 0
      let call : ConsumeCall :=
        { api_key := api_key, amount_cents := ALERT_COST_CENTS,
          usage_event_id := usage_id }
      let result := consume call
      if !result.success then
        { result := Except.ok ("Error: " ++ result.error_message),
          consumeCalls := [call], fetchUrls := [], uuidsDrawn := 1 }
      else if state.isEmpty || state.length != 2 then
        { result := Except.ok "Error: Please provide a valid two-letter US state code.",
          consumeCalls := [call], fetchUrls := [], uuidsDrawn := 1 }
      else
        let url := NWS_API_BASE ++ "/alerts/active/area/" ++ state
        { result := alertsBody (fetch url),
          consumeCalls := [call], fetchUrls := [url], uuidsDrawn := 1 }

/-- Formatting of one forecast period (lines 173-178): every field is read
with bare subscription, so a period missing any of the six keys raises;
fields are read left to right, so the first missing key names the error. -/
def formatPeriod (period : Json) : Except PyError String :=
  match period.index "name", period.index "temperature",
        period.index "temperatureUnit", period.index "windSpeed",
        period.index "windDirection", period.index "detailedForecast" with
  | Except.error e, _, _, _, _, _ => Except.error e
  | _, Except.error e, _, _, _, _ => Except.error e
  | _, _, Except.error e, _, _, _ => Except.error e
  | _, _, _, Except.error e, _, _ => Except.error e
  | _, _, _, _, Except.error e, _ => Except.error e
  | _, _, _, _, _, Except.error e => Except.error e
  | Except.ok nm, Except.ok temp, Except.ok tempUnit,
    Except.ok wind, Except.ok wdir, Except.ok det =>
    Except.ok ("\n" ++ nm.pyStr ++ ":\nTemperature: " ++ temp.pyStr ++ "°"
      ++ tempUnit.pyStr ++ "\nWind: " ++ wind.pyStr ++ " " ++ wdir.pyStr
      ++ "\nForecast: " ++ det.pyStr ++ "\n")

/-- Lines 167-181 of get_forecast, from the second fetched document on:
the guard, forecast_data["properties"]["periods"], the first five periods,
formatting and the join. -/
def forecastSecond : Option Json → Except PyError String
  | none => Except.ok "Error: Unable to fetch detailed forecast."
  | some fd =>
    if !fd.pyTruthy then Except.ok "Error: Unable to fetch detailed forecast."
    else
      match fd.pyMember "properties" with
      | Except.error e => Except.error e
      | Except.ok false => Except.ok "Error: Unable to fetch detailed forecast."
      | Except.ok true =>
        match pyIndex2 fd "properties" "periods" with
        | Except.error e => Except.error e
        | Except.ok periods =>
          match periods.pySliceIter5 with
          | Except.error e => Except.error e
          | Except.ok firstFive =>
            match exceptMapList formatPeriod firstFive with
            | Except.error e => Except.error e
            | Except.ok forecasts =>
              Except.ok (String.intercalate "\n---\n" forecasts)

/-- Lines 158-181 of get_forecast, from the points fetch on.  Returns the
result together with the list of fetched URLs.  When
points_data["properties"]["forecast"] is not a string, make_nws_request
raises internally before any request is issued and its except-clause
collapses that to None, so no URL is fetched and forecastSecond sees
None. -/
def forecastAfterConsume (fetch : String → Option Json)
    (latitude longitude : String) : Except PyError String × List String :=
  let points_url := NWS_API_BASE ++ "/points/" ++ latitude ++ "," ++ longitude
  match fetch points_url with
  | none => (Except.ok "Error: Unable to fetch forecast data for this location.", [points_url])
  | some d =>
    if !d.pyTruthy then
      (Except.ok "Error: Unable to fetch forecast data for this location.", [points_url])
    else
      match d.pyMember "properties" with
      | Except.error e => (Except.error e, [points_url])
      | Except.ok false =>
        (Except.ok "Error: Unable to fetch forecast data for this location.", [points_url])
      | Except.ok true =>
        match pyIndex2 d "properties" "forecast" with
        | Except.error e => (Except.error e, [points_url])
        | Except.ok (Json.str forecast_url) =>
          (forecastSecond (fetch forecast_url), [points_url, forecast_url])
        | Except.ok _ => (forecastSecond none, [points_url])

/-- get_forecast (lines 134-181).  latitude and longitude are the rendered
decimal text of the float arguments, which enter only the points URL. -/
def get_forecast (ctx : Option String) (uuids : Nat → String)
    (consume : ConsumeCall → ConsumeResult)
    (fetch : String → Option Json) (latitude longitude : String) : OpTrace :=
  match ctx with
  | none =>
    { result := Except.ok "Error: API Key missing",
      consumeCalls := [], fetchUrls := [], uuidsDrawn := 0 }
  | some api_key =>
    if api_key.isEmpty then
      { result := Except.ok "Error: API Key missing",
        consumeCalls := [], fetchUrls := [], uuidsDrawn := 0 }
    else
      let usage_id := uuids 0
      let call : ConsumeCall :=
        { api_key := api_key, amount_cents := FORECAST_COST_CENTS,
          usage_event_id := usage_id }
      let result := consume call
      if !result.success then
        { result := Except.ok ("Error: " ++ result.error_message),
          consumeCalls := [call], fetchUrls := [], uuidsDrawn := 1 }
      else
        let fr := forecastAfterConsume fetch latitude longitude
        { result := fr.1, consumeCalls := [call], fetchUrls := fr.2, uuidsDrawn := 1 }

/-!
Well-shapedness predicates on fetched documents.  They delimit a class of
provider documents on which the handlers are exception-free; outside it the
bare subscriptions feature["properties"], ...["forecast"], ...["periods"]
and period[key] can raise.
-/

/-- One alert feature is safely formattable: it is an object whose
"properties" key is present and maps to an object (so the four .get calls
succeed). -/
def featureSafe : Json → Bool
  | Json.obj fs =>
    match fs.lookup "properties" with
    | some (Json.obj _) => true
    | _ => false
  | _ => false

/-- An alerts document is safe: absent or falsy (guard returns the
no-alerts message), or an object whose "features" key, if present, maps to
a list of safely formattable features. -/
def alertsDocSafe : Option Json → Bool
  | none => true
  | some j =>
    (!j.pyTruthy) ||
      (match j with
      | Json.obj fs =>
        match fs.lookup "features" with
        | none => true
        | some (Json.arr items) => items.all featureSafe
        | some _ => false
      | _ => false)

/-- One forecast period is safely formattable: an object carrying all six
bare-subscripted keys. -/
def periodSafe : Json → Bool
  | Json.obj fs =>
    (fs.lookup "name").isSome && (fs.lookup "temperature").isSome
      && (fs.lookup "temperatureUnit").isSome && (fs.lookup "windSpeed").isSome
      && (fs.lookup "windDirection").isSome && (fs.lookup "detailedForecast").isSome
  | _ => false

/-- A points document is safe: absent or falsy (guard returns the
fetch-error message), or an object whose "properties" key, if present,
maps to an object carrying "forecast". -/
def pointsDocSafe : Option Json → Bool
  | none => true
  | some j =>
    (!j.pyTruthy) ||
      (match j with
      | Json.obj fs =>
        match fs.lookup "properties" with
        | none => true
        | some (Json.obj pfs) => (pfs.lookup "forecast").isSome
        | some _ => false
      | _ => false)

/-- A detailed-forecast document is safe: absent or falsy (guard returns
the fetch-error message), or an object whose "properties" key, if present,
maps to an object whose "periods" key maps to a list whose first five
entries are safely formattable. -/
def forecastDocSafe : Option Json → Bool
  | none => true
  | some j =>
    (!j.pyTruthy) ||
      (match j with
      | Json.obj fs =>
        match fs.lookup "properties" with
        | none => true
        | some (Json.obj pfs) =>
          match pfs.lookup "periods" with
          | some (Json.arr ps) => (ps.take 5).all periodSafe
          | _ => false
        | some _ => false
      | _ => false)

/-- A document safe for every use the two handlers make of a fetched
document. -/
def docSafe (d : Option Json) : Bool :=
  alertsDocSafe d && pointsDocSafe d && forecastDocSafe d

/-!
Helper lemmas: on safe documents every formatting path returns a value.
-/

theorem pyGetStr_obj_ok (fs : List (String × Json)) (k d : String) :
    ∃ s, Json.pyGetStr (Json.obj fs) k d = Except.ok s := by
  cases h : fs.lookup k with
  | none => exact ⟨d, by simp [Json.pyGetStr, h]⟩
  | some v => exact ⟨v.pyStr, by simp [Json.pyGetStr, h]⟩

theorem formatAlert_ok (f : Json) (h : featureSafe f = true) :
    ∃ s, formatAlert f = Except.ok s := by
  cases f with
  | obj fs =>
    simp only [featureSafe] at h
    cases hl : fs.lookup "properties" with
    | none => rw [hl] at h; simp at h
    | some v =>
      rw [hl] at h
      cases v with
      | obj pfs =>
        obtain ⟨s1, h1⟩ := pyGetStr_obj_ok pfs "event" "Unknown"
        obtain ⟨s2, h2⟩ := pyGetStr_obj_ok pfs "areaDesc" "Unknown"
        obtain ⟨s3, h3⟩ := pyGetStr_obj_ok pfs "severity" "Unknown"
        obtain ⟨s4, h4⟩ := pyGetStr_obj_ok pfs "description" "No description available"
        refine ⟨"\nEvent: " ++ s1 ++ "\nArea: " ++ s2 ++ "\nSeverity: "
          ++ s3 ++ "\nDescription: " ++ s4 ++ "\n", ?_⟩
        unfold formatAlert
        simp [Json.index, hl, h1, h2, h3, h4]
      | null => simp at h
      | str s => simp at h
      | num n => simp at h
      | arr xs => simp at h
  | null => simp [featureSafe] at h
  | str s => simp [featureSafe] at h
  | num n => simp [featureSafe] at h
  | arr xs => simp [featureSafe] at h

theorem exceptMapList_ok (f : Json → Except PyError String) (xs : List Json)
    (h : ∀ x ∈ xs, ∃ s, f x = Except.ok s) :
    ∃ ys, exceptMapList f xs = Except.ok ys := by
  induction xs with
  | nil => exact ⟨[], rfl⟩
  | cons x xs ih =>
    obtain ⟨y, hy⟩ := h x (by simp)
    obtain ⟨ys, hys⟩ := ih (fun z hz => h z (by simp [hz]))
    exact ⟨y :: ys, by simp [exceptMapList, hy, hys]⟩

theorem alertsBody_ok (d : Option Json) (h : alertsDocSafe d = true) :
    ∃ s, alertsBody d = Except.ok s := by
  cases d with
  | none => exact ⟨"No active alerts for this state.", rfl⟩
  | some j =>
    simp only [alertsDocSafe] at h
    cases htr : j.pyTruthy with
    | false =>
      exact ⟨"No active alerts for this state.", by simp [alertsBody, htr]⟩
    | true =>
      rw [htr] at h
      simp only [Bool.not_true, Bool.false_or] at h
      cases j with
      | obj fs =>
        simp only at h
        cases hl : fs.lookup "features" with
        | none =>
          exact ⟨"No active alerts for this state.",
            by simp [alertsBody, htr, Json.pyMember, hl]⟩
        | some v =>
          rw [hl] at h
          cases v with
          | arr items =>
            simp only [List.all_eq_true] at h
            have hall : ∀ x ∈ items, ∃ s, formatAlert x = Except.ok s :=
              fun x hx => formatAlert_ok x (h x hx)
            obtain ⟨ys, hys⟩ := exceptMapList_ok formatAlert items hall
            exact ⟨String.intercalate "\n---\n" ys,
              by simp [alertsBody, htr, Json.pyMember, Json.index,
                Json.pyIter, hl, hys]⟩
          | null => simp at h
          | str s => simp at h
          | num n => simp at h
          | obj gs => simp at h
      | null => simp [Json.pyTruthy] at htr
      | str s => simp at h
      | num n => simp at h
      | arr xs => simp at h

theorem index_obj_ok (fs : List (String × Json)) (k : String)
    (h : (fs.lookup k).isSome = true) :
    ∃ v, Json.index (Json.obj fs) k = Except.ok v := by
  cases hl : fs.lookup k with
  | none => rw [hl] at h; simp at h
  | some v => exact ⟨v, by simp [Json.index, hl]⟩

theorem formatPeriod_ok (p : Json) (h : periodSafe p = true) :
    ∃ s, formatPeriod p = Except.ok s := by
  cases p with
  | obj fs =>
    simp only [periodSafe, Bool.and_eq_true] at h
    obtain ⟨⟨⟨⟨⟨h1, h2⟩, h3⟩, h4⟩, h5⟩, h6⟩ := h
    obtain ⟨v1, e1⟩ := index_obj_ok fs "name" h1
    obtain ⟨v2, e2⟩ := index_obj_ok fs "temperature" h2
    obtain ⟨v3, e3⟩ := index_obj_ok fs "temperatureUnit" h3
    obtain ⟨v4, e4⟩ := index_obj_ok fs "windSpeed" h4
    obtain ⟨v5, e5⟩ := index_obj_ok fs "windDirection" h5
    obtain ⟨v6, e6⟩ := index_obj_ok fs "detailedForecast" h6
    refine ⟨"\n" ++ v1.pyStr ++ ":\nTemperature: " ++ v2.pyStr ++ "°"
      ++ v3.pyStr ++ "\nWind: " ++ v4.pyStr ++ " " ++ v5.pyStr
      ++ "\nForecast: " ++ v6.pyStr ++ "\n", ?_⟩
    unfold formatPeriod
    simp [e1, e2, e3, e4, e5, e6]
  | null => simp [periodSafe] at h
  | str s => simp [periodSafe] at h
  | num n => simp [periodSafe] at h
  | arr xs => simp [periodSafe] at h

theorem forecastSecond_ok (d : Option Json) (h : forecastDocSafe d = true) :
    ∃ s, forecastSecond d = Except.ok s := by
  cases d with
  | none => exact ⟨"Error: Unable to fetch detailed forecast.", rfl⟩
  | some j =>
    simp only [forecastDocSafe] at h
    cases htr : j.pyTruthy with
    | false =>
      exact ⟨"Error: Unable to fetch detailed forecast.",
        by simp [forecastSecond, htr]⟩
    | true =>
      rw [htr] at h
      simp only [Bool.not_true, Bool.false_or] at h
      cases j with
      | obj fs =>
        simp only at h
        cases hl : fs.lookup "properties" with
        | none =>
          exact ⟨"Error: Unable to fetch detailed forecast.",
            by simp [forecastSecond, htr, Json.pyMember, hl]⟩
        | some v =>
          rw [hl] at h
          cases v with
          | obj pfs =>
            simp only at h
            cases hp : pfs.lookup "periods" with
            | none => rw [hp] at h; simp at h
            | some w =>
              rw [hp] at h
              cases w with
              | arr ps =>
                simp only [List.all_eq_true] at h
                have hall : ∀ x ∈ ps.take 5, ∃ s, formatPeriod x = Except.ok s :=
                  fun x hx => formatPeriod_ok x (h x hx)
                obtain ⟨ys, hys⟩ := exceptMapList_ok formatPeriod (ps.take 5) hall
                exact ⟨String.intercalate "\n---\n" ys,
                  by simp [forecastSecond, htr, Json.pyMember, pyIndex2,
                    Json.index, hl, hp, Json.pySliceIter5, hys]⟩
              | null => simp at h
              | str s => simp at h
              | num n => simp at h
              | obj gs => simp at h
          | null => simp at h
          | str s => simp at h
          | num n => simp at h
          | arr xs => simp at h
      | null => simp [Json.pyTruthy] at htr
      | str s => simp at h
      | num n => simp at h
      | arr xs => simp at h

theorem forecastAfterConsume_ok (fetch : String → Option Json)
    (latitude longitude : String)
    (hp : pointsDocSafe (fetch (NWS_API_BASE ++ "/points/" ++ latitude ++ "," ++ longitude)) = true)
    (hf : ∀ u, forecastDocSafe (fetch u) = true) :
    ∃ s, (forecastAfterConsume fetch latitude longitude).1 = Except.ok s := by
  cases hfd : fetch (NWS_API_BASE ++ "/points/" ++ latitude ++ "," ++ longitude) with
  | none =>
    exact ⟨"Error: Unable to fetch forecast data for this location.",
      by simp [forecastAfterConsume, hfd]⟩
  | some j =>
    rw [hfd] at hp
    simp only [pointsDocSafe] at hp
    cases htr : j.pyTruthy with
    | false =>
      exact ⟨"Error: Unable to fetch forecast data for this location.",
        by simp [forecastAfterConsume, hfd, htr]⟩
    | true =>
      rw [htr] at hp
      simp only [Bool.not_true, Bool.false_or] at hp
      cases j with
      | obj fs =>
        simp only at hp
        cases hl : fs.lookup "properties" with
        | none =>
          exact ⟨"Error: Unable to fetch forecast data for this location.",
            by simp [forecastAfterConsume, hfd, htr, Json.pyMember, hl]⟩
        | some v =>
          rw [hl] at hp
          cases v with
          | obj pfs =>
            simp only at hp
            cases hfo : pfs.lookup "forecast" with
            | none => rw [hfo] at hp; simp at hp
            | some w =>
              cases w with
              | str u =>
                obtain ⟨s, hs⟩ := forecastSecond_ok (fetch u) (hf u)
                exact ⟨s, by simp [forecastAfterConsume, hfd, htr, Json.pyMember,
                  pyIndex2, Json.index, hl, hfo, hs]⟩
              | null =>
                obtain ⟨s, hs⟩ := forecastSecond_ok none rfl
                exact ⟨s, by simp [forecastAfterConsume, hfd, htr, Json.pyMember,
                  pyIndex2, Json.index, hl, hfo, hs]⟩
              | num n =>
                obtain ⟨s, hs⟩ := forecastSecond_ok none rfl
                exact ⟨s, by simp [forecastAfterConsume, hfd, htr, Json.pyMember,
                  pyIndex2, Json.index, hl, hfo, hs]⟩
              | arr xs =>
                obtain ⟨s, hs⟩ := forecastSecond_ok none rfl
                exact ⟨s, by simp [forecastAfterConsume, hfd, htr, Json.pyMember,
                  pyIndex2, Json.index, hl, hfo, hs]⟩
              | obj gs =>
                obtain ⟨s, hs⟩ := forecastSecond_ok none rfl
                exact ⟨s, by simp [forecastAfterConsume, hfd, htr, Json.pyMember,
                  pyIndex2, Json.index, hl, hfo, hs]⟩
          | null => simp at hp
          | str s => simp at hp
          | num n => simp at hp
          | arr xs => simp at hp
      | null => simp [Json.pyTruthy] at htr
      | str s => simp at hp
      | num n => simp at hp
      | arr xs => simp at hp

/-!
Claim theorems.  Each theorem formalizes one claim of the specification
against the embedded code.  downstreamCtx = none in a dispatch result means
call_next was never invoked, so neither the operation handler nor the
consume step nor any data-provider fetch below it ran; quantifying over
call_next (and over validate where it is not called) with a right-hand side
independent of it expresses the same independence.
-/

/-- Claim C1: a request whose credential header validates as invalid is
short-circuited by the middleware with status 401 and the structured body
(error: Unauthorized, message: "Invalid API Key: " followed by the invalid
reason), and the downstream stage — handler, consume, fetch — is never
invoked, for every downstream behavior. -/
theorem C1_auth_invalid_short_circuit {eps : Type} (key reason : String)
    (validate : String → Except Unit ValidationResult)
    (call_next : Option String → Except eps Response) (ctx : Option String)
    (hkey : key.isEmpty = false)
    (hval : validate key = Except.ok { is_valid := false, invalid_reason := reason }) :
    ApiKeyMiddleware.dispatch (some key) validate call_next ctx =
      { response := Except.ok
          { status_code := 401,
            body := [("error", "Unauthorized"),
                     ("message", "Invalid API Key: " ++ reason)] },
        ctxAfter := ctx, downstreamCtx := none } := by
  unfold ApiKeyMiddleware.dispatch
  simp [pyTruthyStr, hkey, hval]

/-- Witness for C1 at a concrete invalid key. -/
theorem C1_auth_invalid_short_circuit_witness :
    ApiKeyMiddleware.dispatch (some "key-1")
      (fun _ => Except.ok { is_valid := false, invalid_reason := "expired" })
      (fun _ => (Except.ok { status_code := 200, body := [] } : Except Unit Response))
      none =
      { response := Except.ok
          { status_code := 401,
            body := [("error", "Unauthorized"),
                     ("message", "Invalid API Key: expired")] },
        ctxAfter := none, downstreamCtx := none } :=
  C1_auth_invalid_short_circuit "key-1" "expired"
    (fun _ => Except.ok { is_valid := false, invalid_reason := "expired" })
    (fun _ => Except.ok { status_code := 200, body := [] })
    none rfl rfl

/-- Claim C2: when the consume call fails, get_alerts and get_forecast
return the consume failure's error message (rendered by the code as
"Error: " followed by the message) and perform no data-provider fetch. -/
theorem C2_consume_failure_no_fetch (key : String) (uuids : Nat → String)
    (consume : ConsumeCall → ConsumeResult) (fetch : String → Option Json)
    (state latitude longitude : String)
    (hkey : key.isEmpty = false)
    (ha : (consume (ConsumeCall.mk key ALERT_COST_CENTS (uuids 0))).success = false)
    (hf : (consume (ConsumeCall.mk key FORECAST_COST_CENTS (uuids 0))).success = false) :
    (get_alerts (some key) uuids consume fetch state).result =
      Except.ok ("Error: "
        ++ (consume (ConsumeCall.mk key ALERT_COST_CENTS (uuids 0))).error_message) ∧
    (get_alerts (some key) uuids consume fetch state).fetchUrls = [] ∧
    (get_forecast (some key) uuids consume fetch latitude longitude).result =
      Except.ok ("Error: "
        ++ (consume (ConsumeCall.mk key FORECAST_COST_CENTS (uuids 0))).error_message) ∧
    (get_forecast (some key) uuids consume fetch latitude longitude).fetchUrls = [] := by
  unfold get_alerts get_forecast
  simp [hkey, ha, hf]

/-- Witness for C2 at a concrete failing consume. -/
theorem C2_consume_failure_no_fetch_witness :
    (get_alerts (some "key-2") (fun _ => "uuid-2")
      (fun _ => { success := false, error_message := "Insufficient balance" })
      (fun _ => none) "CA").result = Except.ok "Error: Insufficient balance" ∧
    (get_alerts (some "key-2") (fun _ => "uuid-2")
      (fun _ => { success := false, error_message := "Insufficient balance" })
      (fun _ => none) "CA").fetchUrls = [] ∧
    (get_forecast (some "key-2") (fun _ => "uuid-2")
      (fun _ => { success := false, error_message := "Insufficient balance" })
      (fun _ => none) "39.7" "-104.9").result = Except.ok "Error: Insufficient balance" ∧
    (get_forecast (some "key-2") (fun _ => "uuid-2")
      (fun _ => { success := false, error_message := "Insufficient balance" })
      (fun _ => none) "39.7" "-104.9").fetchUrls = [] :=
  C2_consume_failure_no_fetch "key-2" (fun _ => "uuid-2")
    (fun _ => { success := false, error_message := "Insufficient balance" })
    (fun _ => none) "CA" "39.7" "-104.9" rfl rfl rfl

/-- Counterexample to claim C5 as stated: with no credential header the
operation's caller-visible text is the literal "Error: API Key missing",
not the literal "missing credential". -/
theorem C5_missing_header_counterexample :
    (get_alerts none (fun _ => "uuid-5")
      (fun _ => { success := true, error_message := "" })
      (fun _ => none) "CA").result = Except.ok "Error: API Key missing" ∧
    "Error: API Key missing" ≠ "missing credential" :=
  ⟨rfl, by decide⟩

/-- Claim C5 (amended): with no credential header the middleware does not
reject: it runs the downstream stage with an absent context binding and
returns its response (re-raising its exception); a metered operation seeing
the absent credential returns the fixed "Error: API Key missing" text and
issues no consume call, no fetch, and draws no usage-event id. -/
theorem C5_missing_header_amended {eps : Type}
    (validate : String → Except Unit ValidationResult)
    (call_next : Option String → Except eps Response) (ctx : Option String)
    (uuids : Nat → String) (consume : ConsumeCall → ConsumeResult)
    (fetch : String → Option Json) (state latitude longitude : String) :
    (ApiKeyMiddleware.dispatch none validate call_next ctx).response = call_next none ∧
    (ApiKeyMiddleware.dispatch none validate call_next ctx).downstreamCtx = some none ∧
    (ApiKeyMiddleware.dispatch none validate call_next ctx).ctxAfter = ctx ∧
    get_alerts none uuids consume fetch state =
      { result := Except.ok "Error: API Key missing",
        consumeCalls := [], fetchUrls := [], uuidsDrawn := 0 } ∧
    get_forecast none uuids consume fetch latitude longitude =
      { result := Except.ok "Error: API Key missing",
        consumeCalls := [], fetchUrls := [], uuidsDrawn := 0 } := by
  refine ⟨?_, ?_, ?_, rfl, rfl⟩ <;>
    cases h : call_next none <;>
      simp [ApiKeyMiddleware.dispatch, pyTruthyStr, h]

/-- Claim C6: when the validation call itself raises, the middleware
short-circuits with status 500 and the structured body
(error: Internal Server Error, message: API Key validation failed), never
invoking the downstream stage. -/
theorem C6_validation_failure_500 {eps : Type} (key : String)
    (validate : String → Except Unit ValidationResult)
    (call_next : Option String → Except eps Response) (ctx : Option String)
    (hkey : key.isEmpty = false)
    (hval : validate key = Except.error ()) :
    ApiKeyMiddleware.dispatch (some key) validate call_next ctx =
      { response := Except.ok
          { status_code := 500,
            body := [("error", "Internal Server Error"),
                     ("message", "API Key validation failed")] },
        ctxAfter := ctx, downstreamCtx := none } := by
  unfold ApiKeyMiddleware.dispatch
  simp [pyTruthyStr, hkey, hval]

/-- Witness for C6 at a concrete raising validator. -/
theorem C6_validation_failure_500_witness :
    ApiKeyMiddleware.dispatch (some "key-6")
      (fun _ => Except.error ())
      (fun _ => (Except.ok { status_code := 200, body := [] } : Except Unit Response))
      none =
      { response := Except.ok
          { status_code := 500,
            body := [("error", "Internal Server Error"),
                     ("message", "API Key validation failed")] },
        ctxAfter := none, downstreamCtx := none } :=
  C6_validation_failure_500 "key-6" (fun _ => Except.error ())
    (fun _ => Except.ok { status_code := 200, body := [] }) none rfl rfl

/-- Claim C8: for every inbound request, on every exit path of dispatch the
context binding is back at its prior value once dispatch completes —
including when the downstream stage raises — and whenever the downstream
stage is invoked at all, the context it observes is exactly the (possibly
absent) credential of this request. -/
theorem C8_context_bind_release {eps : Type} (header : Option String)
    (validate : String → Except Unit ValidationResult)
    (call_next : Option String → Except eps Response) (ctx : Option String) :
    (ApiKeyMiddleware.dispatch header validate call_next ctx).ctxAfter = ctx ∧
    ((ApiKeyMiddleware.dispatch header validate call_next ctx).downstreamCtx = none ∨
     (ApiKeyMiddleware.dispatch header validate call_next ctx).downstreamCtx = some header) := by
  unfold ApiKeyMiddleware.dispatch
  cases hp : pyTruthyStr header with
  | false => cases h : call_next header <;> simp [h, hp]
  | true =>
    cases hv : validate (header.getD "") with
    | error e => simp [hp, hv]
    | ok vr =>
      cases hvr : vr.is_valid <;>
        cases h : call_next header <;> simp [hp, hv, hvr, h]

/-- Claim C10: a present-but-empty credential header is falsy, so the
middleware skips validation (the result does not depend on validate) and
proceeds, binding the empty credential; the operations treat the empty
credential as absent and return the missing-key text with no consume call
and no fetch. -/
theorem C10_empty_credential {eps : Type}
    (validate : String → Except Unit ValidationResult)
    (call_next : Option String → Except eps Response) (ctx : Option String)
    (uuids : Nat → String) (consume : ConsumeCall → ConsumeResult)
    (fetch : String → Option Json) (state latitude longitude : String) :
    (ApiKeyMiddleware.dispatch (some "") validate call_next ctx).response =
      call_next (some "") ∧
    (ApiKeyMiddleware.dispatch (some "") validate call_next ctx).downstreamCtx =
      some (some "") ∧
    (ApiKeyMiddleware.dispatch (some "") validate call_next ctx).ctxAfter = ctx ∧
    get_alerts (some "") uuids consume fetch state =
      { result := Except.ok "Error: API Key missing",
        consumeCalls := [], fetchUrls := [], uuidsDrawn := 0 } ∧
    get_forecast (some "") uuids consume fetch latitude longitude =
      { result := Except.ok "Error: API Key missing",
        consumeCalls := [], fetchUrls := [], uuidsDrawn := 0 } := by
  have he : ("" : String).isEmpty = true := rfl
  refine ⟨?_, ?_, ?_, rfl, rfl⟩ <;>
    cases h : call_next (some "") <;>
      simp [ApiKeyMiddleware.dispatch, pyTruthyStr, he, h]

/-- Counterexample to claim C3 as stated: with region_code "ZZ" (which has
length exactly two, hence passes the two-letter check) after a successful
consume, get_alerts does perform a data-provider fetch and does not return
the input-validation message. -/
theorem C3_region_code_counterexample :
    (get_alerts (some "key-3") (fun _ => "uuid-3")
      (fun _ => { success := true, error_message := "" })
      (fun _ => none) "ZZ").fetchUrls =
        ["https://api.weather.gov/alerts/active/area/ZZ"] ∧
    (get_alerts (some "key-3") (fun _ => "uuid-3")
      (fun _ => { success := true, error_message := "" })
      (fun _ => none) "ZZ").result =
        Except.ok "No active alerts for this state." ∧
    "No active alerts for this state." ≠
      "Error: Please provide a valid two-letter US state code." :=
  ⟨rfl, rfl, by decide⟩

/-- Claim C3 (amended): for a region code that is empty or not exactly two
characters long (e.g. "ZZZ"; "ZZ" itself has valid length and proceeds to
the fetch), after a credential is in context and consume succeeds,
get_alerts returns the input-validation message, performs no fetch, and
exactly one usage event was still recorded with one fresh identifier,
because metering precedes the length check. -/
theorem C3_invalid_length_amended (key : String) (uuids : Nat → String)
    (consume : ConsumeCall → ConsumeResult) (fetch : String → Option Json)
    (state : String)
    (hkey : key.isEmpty = false)
    (hstate : (state.isEmpty || state.length != 2) = true)
    (hc : (consume (ConsumeCall.mk key ALERT_COST_CENTS (uuids 0))).success = true) :
    (get_alerts (some key) uuids consume fetch state).result =
      Except.ok "Error: Please provide a valid two-letter US state code." ∧
    (get_alerts (some key) uuids consume fetch state).fetchUrls = [] ∧
    (get_alerts (some key) uuids consume fetch state).consumeCalls =
      [ConsumeCall.mk key ALERT_COST_CENTS (uuids 0)] ∧
    (get_alerts (some key) uuids consume fetch state).uuidsDrawn = 1 := by
  unfold get_alerts
  simp [hkey, hstate, hc]

/-- Witness for the amended C3 at region code "ZZZ". -/
theorem C3_invalid_length_amended_witness :
    (get_alerts (some "key-3w") (fun _ => "uuid-3w")
      (fun _ => { success := true, error_message := "" })
      (fun _ => none) "ZZZ").result =
      Except.ok "Error: Please provide a valid two-letter US state code." ∧
    (get_alerts (some "key-3w") (fun _ => "uuid-3w")
      (fun _ => { success := true, error_message := "" })
      (fun _ => none) "ZZZ").fetchUrls = [] ∧
    (get_alerts (some "key-3w") (fun _ => "uuid-3w")
      (fun _ => { success := true, error_message := "" })
      (fun _ => none) "ZZZ").consumeCalls =
      [ConsumeCall.mk "key-3w" ALERT_COST_CENTS "uuid-3w"] ∧
    (get_alerts (some "key-3w") (fun _ => "uuid-3w")
      (fun _ => { success := true, error_message := "" })
      (fun _ => none) "ZZZ").uuidsDrawn = 1 :=
  C3_invalid_length_amended "key-3w" (fun _ => "uuid-3w")
    (fun _ => { success := true, error_message := "" })
    (fun _ => none) "ZZZ" rfl (by decide) rfl

/-- Counterexample to claim C4 as stated: a fetched alerts document whose
features list contains an entry without a "properties" key makes
get_alerts raise KeyError past the operation boundary instead of
returning a text value. -/
theorem C4_exception_counterexample :
    (get_alerts (some "key-4") (fun _ => "uuid-4")
      (fun _ => { success := true, error_message := "" })
      (fun _ => some (Json.obj [("features", Json.arr [Json.obj []])]))
      "CA").result = Except.error (PyError.keyError "properties") := rfl

theorem docSafe_split (d : Option Json) (h : docSafe d = true) :
    alertsDocSafe d = true ∧ pointsDocSafe d = true ∧ forecastDocSafe d = true := by
  simp only [docSafe, Bool.and_eq_true] at h
  exact ⟨h.1.1, h.1.2, h.2⟩

/-- Claim C4 (amended): for every well-shaped document the data provider
returns — absent or falsy documents, documents without the respective
top-level key, alert features carrying "properties" as an object (its four
display fields may be absent: they render as placeholders), points
properties carrying a "forecast" entry, and forecast periods carrying all
six displayed keys — get_alerts and get_forecast return a text value and
raise nothing; outside this class a bare subscription such as
feature["properties"], properties["forecast"], properties["periods"] or
period["name"] can raise past the operation boundary, as the counterexample
shows. -/
theorem C4_safe_docs_amended (ctx : Option String) (uuids : Nat → String)
    (consume : ConsumeCall → ConsumeResult) (fetch : String → Option Json)
    (state latitude longitude : String)
    (hsafe : ∀ u, docSafe (fetch u) = true) :
    (∃ s, (get_alerts ctx uuids consume fetch state).result = Except.ok s) ∧
    (∃ t, (get_forecast ctx uuids consume fetch latitude longitude).result = Except.ok t) := by
  constructor
  · cases ctx with
    | none => exact ⟨"Error: API Key missing", rfl⟩
    | some key =>
      cases hk : key.isEmpty with
      | true => exact ⟨"Error: API Key missing", by simp [get_alerts, hk]⟩
      | false =>
        cases hs : (consume (ConsumeCall.mk key ALERT_COST_CENTS (uuids 0))).success with
        | false =>
          exact ⟨"Error: "
              ++ (consume (ConsumeCall.mk key ALERT_COST_CENTS (uuids 0))).error_message,
            by simp [get_alerts, hk, hs]⟩
        | true =>
          cases hst : (state.isEmpty || state.length != 2) with
          | true =>
            exact ⟨"Error: Please provide a valid two-letter US state code.",
              by simp [get_alerts, hk, hs, hst]⟩
          | false =>
            obtain ⟨s, hbody⟩ := alertsBody_ok
              (fetch (NWS_API_BASE ++ "/alerts/active/area/" ++ state))
              (docSafe_split _ (hsafe _)).1
            exact ⟨s, by simp [get_alerts, hk, hs, hst, hbody]⟩
  · cases ctx with
    | none => exact ⟨"Error: API Key missing", rfl⟩
    | some key =>
      cases hk : key.isEmpty with
      | true => exact ⟨"Error: API Key missing", by simp [get_forecast, hk]⟩
      | false =>
        cases hs : (consume (ConsumeCall.mk key FORECAST_COST_CENTS (uuids 0))).success with
        | false =>
          exact ⟨"Error: "
              ++ (consume (ConsumeCall.mk key FORECAST_COST_CENTS (uuids 0))).error_message,
            by simp [get_forecast, hk, hs]⟩
        | true =>
          obtain ⟨s, hres⟩ := forecastAfterConsume_ok fetch latitude longitude
            (docSafe_split _ (hsafe _)).2.1
            (fun u => (docSafe_split _ (hsafe u)).2.2)
          exact ⟨s, by simp [get_forecast, hk, hs, hres]⟩

/-- Witness for the amended C4 with a provider that always reports
unavailability. -/
theorem C4_safe_docs_amended_witness :
    (∃ s, (get_alerts (some "key-4w") (fun _ => "uuid-4w")
      (fun _ => { success := true, error_message := "" })
      (fun _ => none) "CA").result = Except.ok s) ∧
    (∃ t, (get_forecast (some "key-4w") (fun _ => "uuid-4w")
      (fun _ => { success := true, error_message := "" })
      (fun _ => none) "39.7" "-104.9").result = Except.ok t) :=
  C4_safe_docs_amended (some "key-4w") (fun _ => "uuid-4w")
    (fun _ => { success := true, error_message := "" })
    (fun _ => none) "CA" "39.7" "-104.9" (fun _ => rfl)

/-- Claim C7: every get_alerts call that reaches the metering step issues
exactly one consume call charging ALERT_COST_CENTS = 2 cents, every such
get_forecast call exactly one consume call charging FORECAST_COST_CENTS = 3
cents; each uses the single freshly drawn usage-event identifier (exactly
one draw per call) and consume is never retried, whatever the consume and
fetch outcomes. -/
theorem C7_metering_exactly_once (key : String) (uuids : Nat → String)
    (consume : ConsumeCall → ConsumeResult) (fetch : String → Option Json)
    (state latitude longitude : String)
    (hkey : key.isEmpty = false) :
    (get_alerts (some key) uuids consume fetch state).consumeCalls =
      [ConsumeCall.mk key ALERT_COST_CENTS (uuids 0)] ∧
    (get_alerts (some key) uuids consume fetch state).uuidsDrawn = 1 ∧
    (get_forecast (some key) uuids consume fetch latitude longitude).consumeCalls =
      [ConsumeCall.mk key FORECAST_COST_CENTS (uuids 0)] ∧
    (get_forecast (some key) uuids consume fetch latitude longitude).uuidsDrawn = 1 ∧
    ALERT_COST_CENTS = 2 ∧ FORECAST_COST_CENTS = 3 := by
  unfold get_alerts get_forecast
  refine ⟨?_, ?_, ?_, ?_, rfl, rfl⟩ <;>
    cases hs : (consume (ConsumeCall.mk key ALERT_COST_CENTS (uuids 0))).success <;>
      cases hs2 : (consume (ConsumeCall.mk key FORECAST_COST_CENTS (uuids 0))).success <;>
        cases hst : (state.isEmpty || state.length != 2) <;>
          simp [hkey, hs, hs2, hst]

/-- Witness for C7 at a concrete call. -/
theorem C7_metering_exactly_once_witness :
    (get_alerts (some "key-7") (fun _ => "uuid-7")
      (fun _ => { success := true, error_message := "" })
      (fun _ => none) "CA").consumeCalls =
      [ConsumeCall.mk "key-7" ALERT_COST_CENTS "uuid-7"] ∧
    (get_alerts (some "key-7") (fun _ => "uuid-7")
      (fun _ => { success := true, error_message := "" })
      (fun _ => none) "CA").uuidsDrawn = 1 ∧
    (get_forecast (some "key-7") (fun _ => "uuid-7")
      (fun _ => { success := true, error_message := "" })
      (fun _ => none) "39.7" "-104.9").consumeCalls =
      [ConsumeCall.mk "key-7" FORECAST_COST_CENTS "uuid-7"] ∧
    (get_forecast (some "key-7") (fun _ => "uuid-7")
      (fun _ => { success := true, error_message := "" })
      (fun _ => none) "39.7" "-104.9").uuidsDrawn = 1 ∧
    ALERT_COST_CENTS = 2 ∧ FORECAST_COST_CENTS = 3 :=
  C7_metering_exactly_once "key-7" (fun _ => "uuid-7")
    (fun _ => { success := true, error_message := "" })
    (fun _ => none) "CA" "39.7" "-104.9" rfl
